import Mathlib

/-!
A shallow embedding of the FRKB-API fingerprint synchronization core
(src/services/syncService.js, src/models/UserFingerprintCollection.js,
src/models/UserCollectionMeta.js, src/models/DiffSession.js,
src/utils/hashUtils.js, src/controllers/fingerprintSyncController.js,
src/config/constants.js), together with theorems settling the claims about
the natural-language specification of the repository.

Conventions: machine times are naturals (milliseconds), MongoDB collections
are lists of documents, and `async` functions that can throw are embedded as
`Except`-valued functions.
-/

namespace FRKB

/-- Modelled from the spec: the digest
`crypto.createHash('sha256').update(data, 'utf8').digest('hex')` comes from
Node's crypto module, which is not part of this repository. The development
uses only that the digest is a deterministic injective function of its input
whose output differs from the empty string, so it is modelled as an injective
tagged encoding. -/
def sha256Hex (s : String) : String := "sha256:" ++ s

/-- SYNC_CONFIG.DIFF_SESSION_TTL from src/config/constants.js (seconds). -/
def DIFF_SESSION_TTL : Nat := 300

/-- SYNC_CONFIG.DEFAULT_PAGE_SIZE from src/config/constants.js. -/
def DEFAULT_PAGE_SIZE : Nat := 1000

/-- Boolean total order on strings, modelling JavaScript
`Array.prototype.sort()` on strings (lexicographic comparison; the stored
strings are ASCII). -/
def strLe (a b : String) : Bool := decide (a ≤ b)

/-- Hexadecimal character class of the regex `[a-f0-9]` with the `i` flag. -/
def isHexDigit (c : Char) : Bool :=
  ('a' ≤ c && c ≤ 'f') || ('0' ≤ c && c ≤ '9') || ('A' ≤ c && c ≤ 'F')

namespace HashUtils

/-- HashUtils.hash (src/utils/hashUtils.js): sha256 hex digest of a string. -/
def hash (data : String) : String := sha256Hex data

/-- HashUtils.isValidFingerprint (src/utils/hashUtils.js): the regex
`^[a-f0-9]{64}$` with the case-insensitive flag. -/
def isValidFingerprint (value : String) : Bool :=
  value.length == 64 && value.data.all isHexDigit

/-- HashUtils.calculateCollectionHash (src/utils/hashUtils.js 30-46):
empty array hashes the empty string; otherwise lowercase, sort, join with no
separator, then sha256. -/
def calculateCollectionHash (fingerprintArray : List String) : String :=
  if fingerprintArray.length = 0 then hash ""
  else
    hash (String.join
      (List.mergeSort (fingerprintArray.map (fun fp => fp.toLower)) strLe))

/-- Result shape of HashUtils.validateFingerprintArray: `valid` is true when
there is no invalid item, and `validItems` collects the valid items
lowercased, in submission order. -/
structure FingerprintValidation where
  valid : Bool
  validItems : List String
deriving DecidableEq, Repr

/-- HashUtils.validateFingerprintArray (src/utils/hashUtils.js 66-97). -/
def validateFingerprintArray (fingerprintArray : List String) :
    FingerprintValidation :=
  { valid := fingerprintArray.all isValidFingerprint
    validItems :=
      (fingerprintArray.filter isValidFingerprint).map (fun fp => fp.toLower) }

end HashUtils

namespace UserKeyUtils

/-- USER_KEY_REGEX from src/config/constants.js:
`^[0-9a-f]{8}-[0-9a-f]{4}-4[0-9a-f]{3}-[89ab][0-9a-f]{3}-[0-9a-f]{12}$` with
the case-insensitive flag (UUID v4, hyphens at positions 8, 13, 18, 23,
version nibble `4`, variant nibble in `[89ab]`). -/
def isValidFormat (userKey : String) : Bool :=
  let cs := userKey.data
  userKey.length == 36 &&
  (List.range 36).all (fun i =>
    match cs[i]? with
    | none => false
    | some c =>
      if i = 8 || i = 13 || i = 18 || i = 23 then c == '-'
      else if i = 14 then c == '4'
      else if i = 19 then
        c == '8' || c == '9' || c == 'a' || c == 'b' ||
        c == 'A' || c == 'B'
      else isHexDigit c)

/-- UserKeyUtils.normalize: lowercase the key. -/
def normalize (userKey : String) : String := userKey.toLower

end UserKeyUtils

/-- One document of the `user_fingerprint_collections` collection
(src/models/UserFingerprintCollection.js); the unique compound index is on
the pair (userKey, fingerprint). -/
structure FpDoc where
  userKey : String
  fingerprint : String
deriving DecidableEq, Repr

/-- One document of the legacy md5 collection
(src/models/UserMd5Collection.js); the unique compound index is on the pair
(userKey, md5). -/
structure Md5Doc where
  userKey : String
  md5 : String
deriving DecidableEq, Repr

/-- The syncStats subdocument of UserCollectionMeta. -/
structure SyncStatsRec where
  totalSyncs : Nat
  lastSyncAdded : Nat
  lastSyncDuration : Nat
deriving DecidableEq, Repr

/-- One document of the `user_collection_metas` collection
(src/models/UserCollectionMeta.js). -/
structure MetaDoc where
  userKey : String
  totalCount : Nat
  collectionHash : String
  lastSyncAt : Option Nat
  syncStats : SyncStatsRec
deriving DecidableEq, Repr

/-- The durable database state relevant to the sync core: the fingerprint
collection, the legacy md5 collection, and the meta collection. -/
structure DBState where
  fingerprints : List FpDoc
  md5s : List Md5Doc
  metas : List MetaDoc
deriving DecidableEq, Repr

namespace UserFingerprintCollection

/-- Enumeration of one user's stored fingerprints
(`find({ userKey }).select('fingerprint')`). -/
def userFingerprints (db : List FpDoc) (userKey : String) : List String :=
  (db.filter (fun d => d.userKey == userKey)).map (fun d => d.fingerprint)

/-- The insertion loop of `insertMany(docs, { ordered: false })` under the
unique index on (userKey, fingerprint): each lowercased element is inserted
unless the pair is already present (a duplicate-key write error that, with
`ordered: false`, does not abort the remaining inserts); the second
component counts the successful inserts. -/
def insertLoop (db : List FpDoc) (userKey : String) :
    List String → List FpDoc × Nat
  | [] => (db, 0)
  | fp :: rest =>
    let doc : FpDoc := { userKey := userKey, fingerprint := fp.toLower }
    if doc ∈ db then insertLoop db userKey rest
    else
      let r := insertLoop (db ++ [doc]) userKey rest
      (r.1, r.2 + 1)

/-- Counts reported by addBatch. -/
structure AddBatchResult where
  insertedCount : Nat
  duplicateCount : Nat
deriving DecidableEq, Repr

/-- UserFingerprintCollection.addBatch
(src/models/UserFingerprintCollection.js 71-99): both the success path and
the duplicate-key (code 11000) recovery path report
`insertedCount` = number of documents actually inserted and
`duplicateCount = fingerprintArray.length - insertedCount`. -/
def addBatch (db : List FpDoc) (userKey : String)
    (fingerprintArray : List String) : List FpDoc × AddBatchResult :=
  let r := insertLoop db userKey fingerprintArray
  (r.1,
   { insertedCount := r.2
     duplicateCount := fingerprintArray.length - r.2 })

/-- UserFingerprintCollection.checkFingerprintExists
(src/models/UserFingerprintCollection.js 107-112): the stored documents of
the user whose fingerprint is in the lowercased candidate array, projected
to the fingerprint field. -/
def checkFingerprintExists (db : List FpDoc) (userKey : String)
    (fingerprintArray : List String) : List String :=
  (db.filter (fun d =>
    d.userKey == userKey &&
    (fingerprintArray.map (fun fp => fp.toLower)).contains d.fingerprint)).map
    (fun d => d.fingerprint)

/-- Result shape of findMissingFingerprints. -/
structure DiffOutcome where
  missingInClient : List String
  missingInServer : List String
  totalServer : Nat
  totalClient : Nat
deriving DecidableEq, Repr

/-- UserFingerprintCollection.findMissingFingerprints
(src/models/UserFingerprintCollection.js 115-135). -/
def findMissingFingerprints (db : List FpDoc) (userKey : String)
    (clientFingerprints : List String) : DiffOutcome :=
  let serverFingerprints := userFingerprints db userKey
  let clientSet := clientFingerprints.map (fun fp => fp.toLower)
  { missingInClient :=
      serverFingerprints.filter (fun fp => !(clientSet.contains fp))
    missingInServer :=
      (clientFingerprints.map (fun fp => fp.toLower)).filter
        (fun fp => !(serverFingerprints.contains fp))
    totalServer := serverFingerprints.length
    totalClient := clientFingerprints.length }

end UserFingerprintCollection

namespace UserCollectionMeta

/-- UserCollectionMeta instance method calculateCollectionHash
(src/models/UserCollectionMeta.js 107-132). Note that the method reads the
legacy md5 collection (`require('./UserMd5Collection')` on line 109), not
the fingerprint collection: it enumerates the user's md5 documents sorted
ascending, joins them with no separator and takes the sha256 digest. -/
def calculateCollectionHash (db : DBState) (userKey : String) : String :=
  let md5Array :=
    List.mergeSort ((db.md5s.filter (fun d => d.userKey == userKey)).map
      (fun d => d.md5)) strLe
  sha256Hex (String.join md5Array)

/-- UserCollectionMeta instance method updateStats
(src/models/UserCollectionMeta.js 135-162): totalCount is recomputed as
`UserMd5Collection.countDocuments({ userKey })` (line 140), the collection
hash is recomputed by calculateCollectionHash, and, when the sync result
carries an `added` field, the syncStats counters and lastSyncAt are
updated. `syncResult` is `some (added, duration)` when `added` is defined. -/
def updateStats (db : DBState) (meta : MetaDoc)
    (syncResult : Option (Nat × Nat)) (now : Nat) : MetaDoc :=
  let totalCount := (db.md5s.filter (fun d => d.userKey == meta.userKey)).length
  let collectionHash := calculateCollectionHash db meta.userKey
  match syncResult with
  | some (added, duration) =>
    { meta with
      totalCount := totalCount
      collectionHash := collectionHash
      syncStats :=
        { totalSyncs := meta.syncStats.totalSyncs + 1
          lastSyncAdded := added
          lastSyncDuration := duration }
      lastSyncAt := some now }
  | none =>
    { meta with
      totalCount := totalCount
      collectionHash := collectionHash }

/-- UserCollectionMeta.getOrCreate (src/models/UserCollectionMeta.js
164-190): the first-create fast path stores totalCount 0, the sentinel
collectionHash `""` and a null lastSyncAt without scanning any store. -/
def getOrCreate (db : DBState) (userKey : String) : MetaDoc × DBState :=
  match db.metas.find? (fun m => m.userKey == userKey) with
  | some m => (m, db)
  | none =>
    let m : MetaDoc :=
      { userKey := userKey
        totalCount := 0
        collectionHash := ""
        lastSyncAt := none
        syncStats := { totalSyncs := 0, lastSyncAdded := 0, lastSyncDuration := 0 } }
    (m, { db with metas := db.metas ++ [m] })

/-- Persisting a meta document (`meta.save()`): replace the user's record. -/
def saveMeta (db : DBState) (meta : MetaDoc) : DBState :=
  { db with
    metas := db.metas.map (fun m => if m.userKey == meta.userKey then meta else m) }

/-- UserCollectionMeta.updateForUser (src/models/UserCollectionMeta.js
193-202): getOrCreate, then updateStats, then save. -/
def updateForUser (db : DBState) (userKey : String)
    (syncResult : Option (Nat × Nat)) (now : Nat) : MetaDoc × DBState :=
  let gc := getOrCreate db userKey
  let meta := updateStats gc.2 gc.1 syncResult now
  (meta, saveMeta gc.2 meta)

end UserCollectionMeta

/-- One document of the `diff_sessions` collection
(src/models/DiffSession.js). -/
structure DiffSessionRec where
  sessionId : String
  userKey : String
  clientFingerprints : List String
  missingInClient : List String
  missingInServer : List String
  sortedMissingInClient : List String
  totalClient : Nat
  totalServer : Nat
  createdAt : Nat
  expiresAt : Nat
deriving DecidableEq, Repr

namespace DiffSession

/-- Session creation including the pre-validate hook
(src/models/DiffSession.js 37-44): `expiresAt := createdAt + TTL` (TTL in
seconds, times in milliseconds); `sortedMissingInClient` starts at its
schema default `[]`. -/
def create (sessionId userKey : String)
    (clientFps missingInClient missingInServer : List String)
    (totalClient totalServer createdAt : Nat) : DiffSessionRec :=
  { sessionId := sessionId
    userKey := userKey
    clientFingerprints := clientFps
    missingInClient := missingInClient
    missingInServer := missingInServer
    sortedMissingInClient := []
    totalClient := totalClient
    totalServer := totalServer
    createdAt := createdAt
    expiresAt := createdAt + DIFF_SESSION_TTL * 1000 }

/-- Modelled from the spec: the physical reclamation behind
`DiffSession.findOne({ sessionId })` is the MongoDB TTL index declared on
`expiresAt` (src/models/DiffSession.js line 29, `expires: 0`); MongoDB
itself is not part of this repository. Per spec section 4.3 and invariant
I4, the store is authoritative for liveness and MUST NOT return a session
whose expiresAt is in the past. -/
def findLive (sessions : List DiffSessionRec) (sessionId : String)
    (now : Nat) : Option DiffSessionRec :=
  match sessions.find? (fun s => s.sessionId == sessionId) with
  | some s => if now < s.expiresAt then some s else none
  | none => none

end DiffSession

namespace SyncService

/-- One entry of the in-memory syncLocks map (part of SyncService state). -/
structure LockInfo where
  operation : String
  startTime : Nat
  lockId : Nat
deriving DecidableEq, Repr

/-- The server-side meta snapshot consumed by checkSyncRequired (either the
cached copy or the stored document projected to these fields). -/
structure CheckMetaView where
  totalCount : Nat
  collectionHash : String
  lastSyncAt : Option Nat
deriving DecidableEq, Repr

/-- The fields of the checkSyncRequired result that the decision table
determines. The sync-in-progress early return carries no server fields, so
they are optional. -/
structure CheckResult where
  needSync : Bool
  reason : String
  serverCount : Option Nat
  serverHash : Option String
  lastSyncAt : Option Nat
deriving DecidableEq, Repr

/-- SyncService.checkSyncRequired decision logic (syncService.js 33-178).
`lockHeld` is `this.syncLocks.has(userKey)`; `serverMeta` is the cached or
freshly loaded meta; `refresh` is the outcome of the tie-break call
`UserCollectionMeta.updateForUser(userKey, {})`, with `Except.error`
standing for a thrown recalcError (which the code catches, falling back to
hash_mismatch on the cached fields). -/
def checkSyncRequired (lockHeld : Bool) (serverMeta : CheckMetaView)
    (clientCount : Nat) (clientHash : String)
    (refresh : Except Unit CheckMetaView) : CheckResult :=
  if lockHeld then
    { needSync := false, reason := "sync_in_progress"
      serverCount := none, serverHash := none, lastSyncAt := none }
  else if serverMeta.totalCount = 0 then
    if clientCount > 0 then
      { needSync := true, reason := "server_empty"
        serverCount := some serverMeta.totalCount
        serverHash := some serverMeta.collectionHash
        lastSyncAt := serverMeta.lastSyncAt }
    else
      { needSync := false, reason := "both_empty"
        serverCount := some serverMeta.totalCount
        serverHash := some serverMeta.collectionHash
        lastSyncAt := serverMeta.lastSyncAt }
  else if clientCount = 0 then
    { needSync := true, reason := "client_empty"
      serverCount := some serverMeta.totalCount
      serverHash := some serverMeta.collectionHash
      lastSyncAt := serverMeta.lastSyncAt }
  else if serverMeta.totalCount ≠ clientCount then
    { needSync := true, reason := "count_mismatch"
      serverCount := some serverMeta.totalCount
      serverHash := some serverMeta.collectionHash
      lastSyncAt := serverMeta.lastSyncAt }
  else if serverMeta.collectionHash ≠ clientHash then
    if serverMeta.totalCount = clientCount then
      match refresh with
      | Except.ok refreshedMeta =>
        if refreshedMeta.collectionHash = clientHash then
          { needSync := false, reason := "already_synced"
            serverCount := some refreshedMeta.totalCount
            serverHash := some refreshedMeta.collectionHash
            lastSyncAt := refreshedMeta.lastSyncAt }
        else
          { needSync := true, reason := "hash_mismatch"
            serverCount := some refreshedMeta.totalCount
            serverHash := some refreshedMeta.collectionHash
            lastSyncAt := refreshedMeta.lastSyncAt }
      | Except.error _ =>
        { needSync := true, reason := "hash_mismatch"
          serverCount := some serverMeta.totalCount
          serverHash := some serverMeta.collectionHash
          lastSyncAt := serverMeta.lastSyncAt }
    else
      { needSync := true, reason := "hash_mismatch"
        serverCount := some serverMeta.totalCount
        serverHash := some serverMeta.collectionHash
        lastSyncAt := serverMeta.lastSyncAt }
  else
    { needSync := false, reason := "already_synced"
      serverCount := some serverMeta.totalCount
      serverHash := some serverMeta.collectionHash
      lastSyncAt := serverMeta.lastSyncAt }

/-- The pageInfo object returned by pullDiffPage. -/
structure PageInfo where
  currentPage : Nat
  pageSize : Nat
  totalPages : Nat
  hasMore : Bool
  totalCount : Nat
deriving DecidableEq, Repr

/-- The pullDiffPage result. -/
structure PullPageResult where
  sessionId : String
  missingFingerprints : List String
  pageInfo : PageInfo
deriving DecidableEq, Repr

/-- The sorted projection used by pullDiffPage (syncService.js 418-427): the
persisted `sortedMissingInClient` is reused when its length matches
`missingInClient`, otherwise the projection is recomputed in memory as
`[...totalArray].map(m => String(m).toLowerCase()).sort()`. -/
def sortedMissingOf (s : DiffSessionRec) : List String :=
  if s.sortedMissingInClient.length = s.missingInClient.length then
    s.sortedMissingInClient
  else
    List.mergeSort (s.missingInClient.map (fun m => m.toLower)) strLe

/-- The pagination step of SyncService.pullDiffPage (syncService.js
412-450): `totalPages = Math.ceil(totalCount / pageSize) || 1`, the page
index is clamped into `[0, totalPages - 1]`, and the page is
`sortedMissing.slice(start, start + pageSize)`. -/
def pullPage (s : DiffSessionRec) (pageIndex : Nat) : PullPageResult :=
  let pageSize := DEFAULT_PAGE_SIZE
  let sortedMissing := sortedMissingOf s
  let totalCount := sortedMissing.length
  let pages := (totalCount + pageSize - 1) / pageSize
  let totalPages := if pages = 0 then 1 else pages
  let safePageIndex := min pageIndex (totalPages - 1)
  let start := safePageIndex * pageSize
  { sessionId := s.sessionId
    missingFingerprints := (sortedMissing.drop start).take pageSize
    pageInfo :=
      { currentPage := safePageIndex
        pageSize := pageSize
        totalPages := totalPages
        hasMore := decide (safePageIndex < totalPages - 1)
        totalCount := totalCount } }

/-- Errors thrown by SyncService.pullDiffPage. -/
inductive PullError where
  | diffSessionNotFound (retryAfter : Nat)
  | diffSessionUserMismatch
deriving DecidableEq, Repr

/-- SyncService.pullDiffPage (syncService.js 386-474): look the session up
in durable storage; a missing (or physically expired) session raises
DIFF_SESSION_NOT_FOUND with retryAfter = session TTL; a foreign session
raises DIFF_SESSION_USER_MISMATCH; otherwise paginate. -/
def pullDiffPage (sessions : List DiffSessionRec) (userKey sessionId : String)
    (pageIndex now : Nat) : Except PullError PullPageResult :=
  match DiffSession.findLive sessions sessionId now with
  | none => Except.error (PullError.diffSessionNotFound DIFF_SESSION_TTL)
  | some s =>
    if s.userKey ≠ userKey then Except.error PullError.diffSessionUserMismatch
    else Except.ok (pullPage s pageIndex)

/-- The diffStats object returned by analyzeDifference. -/
structure DiffStats where
  clientMissingCount : Nat
  serverMissingCount : Nat
  totalPages : Nat
  pageSize : Nat
deriving DecidableEq, Repr

/-- The analyzeDifference result (projected to the session it persists and
the returned statistics). -/
structure AnalyzeResult where
  diffSessionId : String
  diffStats : DiffStats
  session : DiffSessionRec
deriving DecidableEq, Repr

/-- SyncService.analyzeDifference (syncService.js 483-574): validate and
lowercase the client array, compute both missing sets against the user's
stored fingerprints, persist a DiffSession, and report
`totalPages = Math.ceil(missingInClient.length / pageSize)` (with no floor
to 1). The generated session id and the clock are parameters. -/
def analyzeDifference (db : List FpDoc) (userKey : String)
    (clientFingerprints : List String) (sessionId : String) (now : Nat) :
    Except String AnalyzeResult :=
  let validation := HashUtils.validateFingerprintArray clientFingerprints
  if !validation.valid then Except.error "VALIDATION_ERROR"
  else
    let normalized := validation.validItems
    let d := UserFingerprintCollection.findMissingFingerprints db userKey normalized
    let sess := DiffSession.create sessionId userKey normalized
      d.missingInClient d.missingInServer d.totalClient d.totalServer now
    let pageSize := DEFAULT_PAGE_SIZE
    Except.ok
      { diffSessionId := sessionId
        diffStats :=
          { clientMissingCount := d.missingInClient.length
            serverMissingCount := d.missingInServer.length
            totalPages := (d.missingInClient.length + pageSize - 1) / pageSize
            pageSize := pageSize }
        session := sess }

/-- The bidirectionalDiff result projected to the fields the claims are
about: the partition of the client batch and the bloom statistics that are
returned for logging purposes only. -/
structure BidiResult where
  batchIndex : Nat
  serverMissingFingerprints : List String
  serverExistingFingerprints : List String
  bloomFilterStats : Option Nat
deriving DecidableEq, Repr

/-- SyncService.bidirectionalDiff (syncService.js 189-300): validate the
batch, consult the bloom filter when enabled (syncService.js 207-223; the
prefiltered list is only logged), then query the fingerprint store for the
subset of the full normalized batch that is stored and partition the batch
by membership in that subset. `bloomHas` is the per-fingerprint answer of
`bloomFilterService.batchMightContain`; its summary is returned as
statistics. -/
def bidirectionalDiff (db : List FpDoc) (userKey : String)
    (bloomEnabled : Bool) (bloomHas : String → Bool)
    (clientFingerprints : List String) (batchIndex : Nat) :
    Except String BidiResult :=
  let validation := HashUtils.validateFingerprintArray clientFingerprints
  if !validation.valid then Except.error "VALIDATION_ERROR"
  else
    let normalized := validation.validItems
    let bloomResult : Option (List (String × Bool)) :=
      if bloomEnabled then some (normalized.map (fun fp => (fp, bloomHas fp)))
      else none
    let existingDocs :=
      UserFingerprintCollection.checkFingerprintExists db userKey normalized
    Except.ok
      { batchIndex := batchIndex
        serverMissingFingerprints :=
          normalized.filter (fun fp => !(existingDocs.contains fp))
        serverExistingFingerprints :=
          normalized.filter (fun fp => existingDocs.contains fp)
        bloomFilterStats :=
          bloomResult.map (fun r => (r.filter (fun p => p.2)).length) }

/-- The batchAddFingerprints result. -/
structure AddResult where
  addedCount : Nat
  duplicateCount : Nat
  totalRequested : Nat
deriving DecidableEq, Repr

/-- The storage effect of SyncService.batchAddFingerprints (syncService.js
309-376) between acquiring and releasing the lock: validate, addBatch into
the fingerprint collection, then `UserCollectionMeta.updateForUser(userKey,
{ added, duration })`. The measured duration is irrelevant to state and is
passed as 0. -/
def batchAddCore (db : DBState) (userKey : String)
    (addFingerprints : List String) (now : Nat) :
    Except String (DBState × AddResult) :=
  let validation := HashUtils.validateFingerprintArray addFingerprints
  if !validation.valid then Except.error "VALIDATION_ERROR"
  else
    let normalized := validation.validItems
    let ab := UserFingerprintCollection.addBatch db.fingerprints userKey normalized
    let db1 : DBState := { db with fingerprints := ab.1 }
    let uf := UserCollectionMeta.updateForUser db1 userKey
      (some (ab.2.insertedCount, 0)) now
    Except.ok
      (uf.2,
       { addedCount := ab.2.insertedCount
         duplicateCount := ab.2.duplicateCount
         totalRequested := normalized.length })

/-- The process state owned by the SyncService singleton together with the
durable stores it manipulates. -/
structure ServiceState where
  db : DBState
  sessions : List DiffSessionRec
  syncLocks : List (String × LockInfo)
deriving DecidableEq, Repr

/-- SyncService.acquireSyncLock (syncService.js 617-645): a conflicting
acquisition fails unless the held lock is older than 5 minutes, in which
case it is deleted with a warning and the new lock is installed. -/
def acquireSyncLock (locks : List (String × LockInfo))
    (userKey operation : String) (now lockId : Nat) :
    Except String (List (String × LockInfo)) :=
  let fresh : LockInfo := { operation := operation, startTime := now, lockId := lockId }
  match locks.find? (fun p => p.1 == userKey) with
  | some p =>
    if now - p.2.startTime > 5 * 60 * 1000 then
      Except.ok ((locks.filter (fun q => q.1 != userKey)) ++ [(userKey, fresh)])
    else Except.error "SYNC_IN_PROGRESS"
  | none => Except.ok (locks ++ [(userKey, fresh)])

/-- SyncService.releaseSyncLock (syncService.js 651-664): drop the user's
lock entry when present. -/
def releaseSyncLock (locks : List (String × LockInfo)) (userKey : String) :
    List (String × LockInfo) :=
  locks.filter (fun q => q.1 != userKey)

/-- SyncService.batchAddFingerprints (syncService.js 309-376) including the
locking protocol: acquireSyncLock at entry, the storage work of
batchAddCore, and a `finally` releaseSyncLock that runs on every path (note
it runs even when acquireSyncLock itself threw). -/
def batchAddFingerprints (st : ServiceState) (userKey : String)
    (addFingerprints : List String) (now lockId : Nat) :
    Except String AddResult × ServiceState :=
  match acquireSyncLock st.syncLocks userKey "batch_add" now lockId with
  | Except.error e =>
    (Except.error e, { st with syncLocks := releaseSyncLock st.syncLocks userKey })
  | Except.ok locks1 =>
    match batchAddCore st.db userKey addFingerprints now with
    | Except.error e =>
      (Except.error e, { st with syncLocks := releaseSyncLock locks1 userKey })
    | Except.ok r =>
      (Except.ok r.2,
       { st with db := r.1, syncLocks := releaseSyncLock locks1 userKey })

end SyncService

namespace FingerprintSyncController

/-- The counts returned by the reset endpoint. -/
structure ResetOutcome where
  clearedFingerprints : Nat
  clearedMetas : Nat
  deletedSessions : Nat
deriving DecidableEq, Repr

/-- FingerprintSyncController.resetUserData
(src/controllers/fingerprintSyncController.js 515-598): validate and
normalize the user key, require an authorized key record, then delete the
user's fingerprint documents, meta documents and diff sessions and clear
the cache. The handler never touches the SyncService lock table. -/
def resetUserData (st : SyncService.ServiceState) (authKeys : List String)
    (userKey : String) :
    Except String (ResetOutcome × SyncService.ServiceState) :=
  if !(UserKeyUtils.isValidFormat userKey) then Except.error "INVALID_USER_KEY"
  else
    let normalized := UserKeyUtils.normalize userKey
    if !(authKeys.contains normalized) then Except.error "USER_KEY_NOT_FOUND"
    else
      Except.ok
        ({ clearedFingerprints :=
             (st.db.fingerprints.filter (fun d => d.userKey == normalized)).length
           clearedMetas :=
             (st.db.metas.filter (fun m => m.userKey == normalized)).length
           deletedSessions :=
             (st.sessions.filter (fun s => s.userKey == normalized)).length },
         { st with
           db :=
             { st.db with
               fingerprints :=
                 st.db.fingerprints.filter (fun d => d.userKey != normalized)
               metas := st.db.metas.filter (fun m => m.userKey != normalized) }
           sessions := st.sessions.filter (fun s => s.userKey != normalized) })

end FingerprintSyncController

/-! Concrete inputs used by the counterexamples and witnesses. -/

/-- A well-formed user key (the UUID used by the spec's end-to-end
scenarios). -/
def demoUser : String := "550e8400-e29b-41d4-a716-446655440000"

/-- A valid fingerprint: 64 lowercase hex characters. -/
def demoFp : String :=
  "aaaaaaaaaaaaaaaaaaaaaaaaaaaaaaaaaaaaaaaaaaaaaaaaaaaaaaaaaaaaaaaa"

/-- The empty database. -/
def emptyDB : DBState := { fingerprints := [], md5s := [], metas := [] }

/-- A service state in which a sync lock of age zero is held for `demoUser`
while one fingerprint of that user is stored. -/
def lockedState : SyncService.ServiceState :=
  { db := { fingerprints := [{ userKey := demoUser, fingerprint := demoFp }]
            md5s := []
            metas := [] }
    sessions := []
    syncLocks := [(demoUser, { operation := "batch_add", startTime := 0, lockId := 0 })] }

/-- The expected database after `batchAddCore emptyDB demoUser [demoFp] 0`:
one fingerprint document, while the meta record — recomputed from the
legacy md5 collection — still reports zero elements and the hash of the
empty concatenation. -/
def dbAfterDemoAdd : DBState :=
  { fingerprints := [{ userKey := demoUser, fingerprint := demoFp }]
    md5s := []
    metas := [{ userKey := demoUser
                totalCount := 0
                collectionHash := sha256Hex ""
                lastSyncAt := some 0
                syncStats := { totalSyncs := 1, lastSyncAdded := 1, lastSyncDuration := 0 } }] }

/-- A diff session created at time 100 with two fingerprints missing in the
client. -/
def demoSession : DiffSessionRec :=
  DiffSession.create "diff_1_abc" demoUser [] ["b", "a"] [] 0 2 100

/-- A diff session created at time 0 whose missing-in-client set is empty. -/
def demoEmptySession : DiffSessionRec :=
  DiffSession.create "diff_2_def" demoUser [] [] [] 0 0 0

/-- The canonical sorted projection of a session's missing-in-client set:
`sort(lowercase(missingInClient))`, the order pullDiffPage serves pages in. -/
def sortedProjection (s : DiffSessionRec) : List String :=
  List.mergeSort (s.missingInClient.map (fun m => m.toLower)) strLe

/-- The number of in-range pages of a session,
`ceil(missingInClient.length / pageSize)` before pullDiffPage's floor to 1. -/
def pageCount (s : DiffSessionRec) : Nat :=
  ((sortedProjection s).length + DEFAULT_PAGE_SIZE - 1) / DEFAULT_PAGE_SIZE

/-- A diff session with three fingerprints missing in the client, used by
the pagination witness. -/
def demoPageSession : DiffSessionRec :=
  DiffSession.create "diff_3_ghi" demoUser [] ["b", "a", "c"] [] 0 3 0

end FRKB

/-! Theorems settling the claims. -/

namespace FRKB

theorem string_toLower_toLower (s : String) : s.toLower.toLower = s.toLower := by
  have hchar : ∀ c : Char, c.toLower.toLower = c.toLower := by
    intro c
    unfold Char.toLower
    by_cases h : c.toNat ≥ 65 ∧ c.toNat ≤ 90
    · rw [if_pos h]
      have hvalid : (c.toNat + 32).isValidChar := Or.inl (by omega)
      have ht : (Char.ofNat (c.toNat + 32)).toNat = c.toNat + 32 := by
        unfold Char.ofNat
        rw [dif_pos hvalid]
        rfl
      rw [if_neg (by rw [ht]; omega)]
    · rw [if_neg h, if_neg h]
  show (String.map Char.toLower (String.map Char.toLower s)) = String.map Char.toLower s
  rw [String.map_eq, String.map_eq]
  simp only [List.map_map]
  exact congrArg String.mk (List.map_congr_left (fun c _ => hchar c))

set_option maxRecDepth 8000 in
unseal List.merge List.mergeSort String.mapAux in
/-- C1: after a successful batchAddFingerprints of one valid fingerprint
into an empty system, the fingerprint store holds one record for the user,
but the meta update (UserCollectionMeta.updateForUser, the applyDelta /
refresh step) re-derives totalCount and collectionHash from the legacy
UserMd5Collection (UserCollectionMeta.js line 109) instead of the
Fingerprint Store: the persisted meta reports totalCount = 0 and
collectionHash = sha256 of the empty concatenation, violating I1 and I2 at
the quiescent state after the call. -/
theorem batchAdd_meta_not_derived_from_fingerprint_store :
    SyncService.batchAddCore emptyDB demoUser [demoFp] 0 =
      Except.ok (dbAfterDemoAdd,
        { addedCount := 1, duplicateCount := 0, totalRequested := 1 })
    ∧ (UserFingerprintCollection.userFingerprints
        dbAfterDemoAdd.fingerprints demoUser).length = 1
    ∧ dbAfterDemoAdd.metas.map (fun m => (m.totalCount, m.collectionHash)) =
        [(0, sha256Hex "")]
    ∧ sha256Hex "" ≠
        HashUtils.calculateCollectionHash
          (UserFingerprintCollection.userFingerprints
            dbAfterDemoAdd.fingerprints demoUser)
    ∧ (0 : Nat) ≠ (UserFingerprintCollection.userFingerprints
        dbAfterDemoAdd.fingerprints demoUser).length := by
  refine ⟨by rfl, by decide, by decide, by decide, by decide⟩

/-- C7 counterexample: a meta record freshly auto-created by getOrCreate has
totalCount = 0 but collectionHash = "" (the never-computed sentinel), which
is not the sha256 digest of the empty string. -/
theorem getOrCreate_fresh_meta_hash_is_sentinel :
    ((UserCollectionMeta.getOrCreate emptyDB demoUser).1.totalCount = 0)
    ∧ ((UserCollectionMeta.getOrCreate emptyDB demoUser).1.collectionHash = "")
    ∧ ((UserCollectionMeta.getOrCreate emptyDB demoUser).1.collectionHash ≠
        sha256Hex "") := by
  refine ⟨by decide, by decide, by decide⟩

/-- C7 amended: whenever the meta record has been refreshed by updateStats
against a state holding zero records for the user, it reports totalCount = 0
and collectionHash = sha256 of the empty string (the hash of the empty
sorted concatenation, as also computed by HashUtils.calculateCollectionHash
on the empty array); a meta freshly auto-created by getOrCreate instead
carries the sentinel "", which differs from that digest until the first
refresh. -/
theorem meta_refreshed_empty_hash_is_sha256_of_empty
    (db : DBState) (meta : MetaDoc) (syncResult : Option (Nat × Nat)) (now : Nat)
    (h : db.md5s.filter (fun d => d.userKey == meta.userKey) = []) :
    (UserCollectionMeta.updateStats db meta syncResult now).totalCount = 0
    ∧ (UserCollectionMeta.updateStats db meta syncResult now).collectionHash =
        sha256Hex ""
    ∧ HashUtils.calculateCollectionHash [] = sha256Hex ""
    ∧ ("" : String) ≠ sha256Hex "" := by
  unfold UserCollectionMeta.updateStats UserCollectionMeta.calculateCollectionHash
  rw [h]
  rcases syncResult with _ | ⟨added, duration⟩ <;>
    simp [HashUtils.calculateCollectionHash, HashUtils.hash, String.join] <;>
    decide

/-- C7 amended witness. -/
theorem meta_refreshed_empty_hash_is_sha256_of_empty_witness :
    (UserCollectionMeta.updateStats emptyDB
      (UserCollectionMeta.getOrCreate emptyDB demoUser).1 none 0).totalCount = 0
    ∧ (UserCollectionMeta.updateStats emptyDB
        (UserCollectionMeta.getOrCreate emptyDB demoUser).1 none 0).collectionHash =
        sha256Hex ""
    ∧ HashUtils.calculateCollectionHash [] = sha256Hex ""
    ∧ ("" : String) ≠ sha256Hex "" :=
  meta_refreshed_empty_hash_is_sha256_of_empty emptyDB
    (UserCollectionMeta.getOrCreate emptyDB demoUser).1 none 0 (by decide)

/-- C9: when the tie-break refresh (UserCollectionMeta.updateForUser inside
checkSyncRequired's equal-count, differing-hash branch) throws, the error is
caught: the check still returns a result with needSync = true and reason
hash_mismatch built from the cached meta fields, instead of propagating the
storage failure. -/
theorem check_tiebreak_refresh_error_swallowed
    (serverMeta : SyncService.CheckMetaView) (clientCount : Nat)
    (clientHash : String)
    (h0 : serverMeta.totalCount ≠ 0)
    (hc : serverMeta.totalCount = clientCount)
    (hh : serverMeta.collectionHash ≠ clientHash) :
    SyncService.checkSyncRequired false serverMeta clientCount clientHash
      (Except.error ()) =
      { needSync := true
        reason := "hash_mismatch"
        serverCount := some serverMeta.totalCount
        serverHash := some serverMeta.collectionHash
        lastSyncAt := serverMeta.lastSyncAt } := by
  have hcc : clientCount ≠ 0 := fun w => h0 (by omega)
  simp [SyncService.checkSyncRequired, h0, hc, hh, hcc]

/-- C3: a pullDiffPage issued strictly after a session's expiresAt (equal to
createdAt plus the 300-second TTL, as installed by the DiffSession
pre-validate hook) fails with DIFF_SESSION_NOT_FOUND carrying retryAfter =
TTL, because the storage lookup does not return physically expired
sessions; in particular the expired snapshot influences no page response.
The sessionId-uniqueness hypothesis reflects the unique index on sessionId
declared in the schema. -/
theorem pullDiffPage_after_ttl_not_found
    (sessions : List DiffSessionRec) (s : DiffSessionRec)
    (userKey : String) (pageIndex eps : Nat)
    (hmem : s ∈ sessions)
    (huniq : ∀ t ∈ sessions, t.sessionId = s.sessionId → t = s)
    (hexp : s.expiresAt = s.createdAt + DIFF_SESSION_TTL * 1000)
    (heps : 0 < eps) :
    SyncService.pullDiffPage sessions userKey s.sessionId pageIndex
      (s.createdAt + DIFF_SESSION_TTL * 1000 + eps) =
      Except.error (SyncService.PullError.diffSessionNotFound DIFF_SESSION_TTL) := by
  have _hm := hmem
  unfold SyncService.pullDiffPage DiffSession.findLive
  cases hfind : sessions.find? (fun t => t.sessionId == s.sessionId) with
  | none => rfl
  | some t =>
    have ht : t = s := huniq t (List.mem_of_find?_eq_some hfind)
      (by simpa using List.find?_some hfind)
    have hnow : ¬ (s.createdAt + DIFF_SESSION_TTL * 1000 + eps < t.expiresAt) := by
      rw [ht, hexp]
      omega
    simp [hnow]

/-- C3 witness. -/
theorem pullDiffPage_after_ttl_not_found_witness :
    SyncService.pullDiffPage [demoSession] demoUser demoSession.sessionId 0
      (demoSession.createdAt + DIFF_SESSION_TTL * 1000 + 1) =
      Except.error (SyncService.PullError.diffSessionNotFound DIFF_SESSION_TTL) :=
  pullDiffPage_after_ttl_not_found [demoSession] demoSession demoUser 0 1
    (by decide) (by decide) (by decide) (by decide)

/-- C10: pullDiffPage on a live session whose missingInClient is empty
returns totalPages = 1 (the `|| 1` floor), an empty page, hasMore = false
and totalCount = 0, while analyzeDifference reports totalPages = 0 in its
diffStats for a session with no client-missing fingerprints (plain ceiling
with no floor to 1). -/
theorem empty_session_page_counts
    (s : DiffSessionRec) (i : Nat)
    (hm : s.missingInClient = []) (hsc : s.sortedMissingInClient = []) :
    SyncService.pullPage s i =
      { sessionId := s.sessionId
        missingFingerprints := []
        pageInfo :=
          { currentPage := 0, pageSize := DEFAULT_PAGE_SIZE, totalPages := 1
            hasMore := false, totalCount := 0 } }
    ∧ ∀ (db : List FpDoc) (u : String) (cl : List String) (sid : String)
        (now : Nat) (r : SyncService.AnalyzeResult),
        SyncService.analyzeDifference db u cl sid now = Except.ok r →
        r.session.missingInClient = [] → r.diffStats.totalPages = 0 := by
  constructor
  · simp [SyncService.pullPage, SyncService.sortedMissingOf, hm, hsc,
      DEFAULT_PAGE_SIZE]
  · intro db u cl sid now r hok hmz
    unfold SyncService.analyzeDifference at hok
    by_cases hv : (HashUtils.validateFingerprintArray cl).valid
    · simp only [hv, Bool.not_true, if_false, Bool.false_eq_true, if_neg,
        Except.ok.injEq] at hok
      subst hok
      simp only [DiffSession.create] at hmz
      simp [hmz, DEFAULT_PAGE_SIZE]
    · simp [hv] at hok

/-- C10 witness. -/
theorem empty_session_page_counts_witness :
    SyncService.pullPage demoEmptySession 5 =
      { sessionId := demoEmptySession.sessionId
        missingFingerprints := []
        pageInfo :=
          { currentPage := 0, pageSize := DEFAULT_PAGE_SIZE, totalPages := 1
            hasMore := false, totalCount := 0 } } :=
  (empty_session_page_counts demoEmptySession 5 rfl rfl).1

/-- C2: checkSyncRequired follows the first-match decision table: a held
lock gives sync_in_progress / no sync; server count 0 with client count 0
gives both_empty / no sync; server count 0 alone gives server_empty / sync;
client count 0 gives client_empty / sync; unequal counts give
count_mismatch / sync; equal cached hashes give already_synced / no sync;
equal counts with differing hashes trigger the refresh, after which equal
hashes give already_synced / no sync and differing hashes give
hash_mismatch / sync, both re-compared against the refreshed meta. -/
theorem checkSyncRequired_decision_table (lockHeld : Bool)
    (serverMeta : SyncService.CheckMetaView) (clientCount : Nat)
    (clientHash : String) (refresh : Except Unit SyncService.CheckMetaView) :
    (lockHeld = true →
      SyncService.checkSyncRequired lockHeld serverMeta clientCount clientHash refresh =
        { needSync := false, reason := "sync_in_progress"
          serverCount := none, serverHash := none, lastSyncAt := none })
    ∧ (lockHeld = false → serverMeta.totalCount = 0 → clientCount = 0 →
        (SyncService.checkSyncRequired lockHeld serverMeta clientCount clientHash refresh).reason
          = "both_empty" ∧
        (SyncService.checkSyncRequired lockHeld serverMeta clientCount clientHash refresh).needSync
          = false)
    ∧ (lockHeld = false → serverMeta.totalCount = 0 → clientCount ≠ 0 →
        (SyncService.checkSyncRequired lockHeld serverMeta clientCount clientHash refresh).reason
          = "server_empty" ∧
        (SyncService.checkSyncRequired lockHeld serverMeta clientCount clientHash refresh).needSync
          = true)
    ∧ (lockHeld = false → serverMeta.totalCount ≠ 0 → clientCount = 0 →
        (SyncService.checkSyncRequired lockHeld serverMeta clientCount clientHash refresh).reason
          = "client_empty" ∧
        (SyncService.checkSyncRequired lockHeld serverMeta clientCount clientHash refresh).needSync
          = true)
    ∧ (lockHeld = false → serverMeta.totalCount ≠ 0 → clientCount ≠ 0 →
        serverMeta.totalCount ≠ clientCount →
        (SyncService.checkSyncRequired lockHeld serverMeta clientCount clientHash refresh).reason
          = "count_mismatch" ∧
        (SyncService.checkSyncRequired lockHeld serverMeta clientCount clientHash refresh).needSync
          = true)
    ∧ (lockHeld = false → serverMeta.totalCount ≠ 0 →
        serverMeta.totalCount = clientCount →
        serverMeta.collectionHash = clientHash →
        (SyncService.checkSyncRequired lockHeld serverMeta clientCount clientHash refresh).reason
          = "already_synced" ∧
        (SyncService.checkSyncRequired lockHeld serverMeta clientCount clientHash refresh).needSync
          = false)
    ∧ (∀ m, lockHeld = false → serverMeta.totalCount ≠ 0 →
        serverMeta.totalCount = clientCount →
        serverMeta.collectionHash ≠ clientHash → refresh = Except.ok m →
        m.collectionHash = clientHash →
        SyncService.checkSyncRequired lockHeld serverMeta clientCount clientHash refresh =
          { needSync := false, reason := "already_synced"
            serverCount := some m.totalCount
            serverHash := some m.collectionHash
            lastSyncAt := m.lastSyncAt })
    ∧ (∀ m, lockHeld = false → serverMeta.totalCount ≠ 0 →
        serverMeta.totalCount = clientCount →
        serverMeta.collectionHash ≠ clientHash → refresh = Except.ok m →
        m.collectionHash ≠ clientHash →
        SyncService.checkSyncRequired lockHeld serverMeta clientCount clientHash refresh =
          { needSync := true, reason := "hash_mismatch"
            serverCount := some m.totalCount
            serverHash := some m.collectionHash
            lastSyncAt := m.lastSyncAt }) := by
  refine ⟨?_, ?_, ?_, ?_, ?_, ?_, ?_, ?_⟩
  · intro hl
    simp [SyncService.checkSyncRequired, hl]
  · intro hl h0 hc
    simp [SyncService.checkSyncRequired, hl, h0, hc]
  · intro hl h0 hc
    simp [SyncService.checkSyncRequired, hl, h0, hc, Nat.pos_of_ne_zero hc]
  · intro hl h0 hc
    simp [SyncService.checkSyncRequired, hl, h0, hc]
  · intro hl h0 hc hne
    simp [SyncService.checkSyncRequired, hl, h0, hc, hne]
  · intro hl h0 hc hh
    have hcc : clientCount ≠ 0 := fun w => h0 (by omega)
    simp [SyncService.checkSyncRequired, hl, h0, hc, hh, hcc]
  · intro m hl h0 hc hh hr hm
    have hcc : clientCount ≠ 0 := fun w => h0 (by omega)
    simp [SyncService.checkSyncRequired, hl, h0, hc, hh, hcc, hr, hm]
  · intro m hl h0 hc hh hr hm
    have hcc : clientCount ≠ 0 := fun w => h0 (by omega)
    simp [SyncService.checkSyncRequired, hl, h0, hc, hh, hcc, hr, hm]

/-- C2 witness (instantiates the count_mismatch row at concrete inputs). -/
theorem checkSyncRequired_decision_table_witness :
    (SyncService.checkSyncRequired false
      { totalCount := 3, collectionHash := "h1", lastSyncAt := none } 2 "h2"
      (Except.error ())).reason = "count_mismatch" ∧
    (SyncService.checkSyncRequired false
      { totalCount := 3, collectionHash := "h1", lastSyncAt := none } 2 "h2"
      (Except.error ())).needSync = true :=
  (checkSyncRequired_decision_table false
    { totalCount := 3, collectionHash := "h1", lastSyncAt := none } 2 "h2"
    (Except.error ())).2.2.2.2.1 (by decide) (by decide) (by decide) (by decide)

theorem releaseSyncLock_find_none (locks : List (String × SyncService.LockInfo))
    (userKey : String) :
    (SyncService.releaseSyncLock locks userKey).find? (fun p => p.1 == userKey) =
      none := by
  apply List.find?_eq_none.mpr
  intro x hx
  have hne := (List.mem_filter.mp hx).2
  simp_all [SyncService.releaseSyncLock]

set_option maxRecDepth 8000 in
unseal String.mapAux in
/-- C4 counterexample: with a sync lock of age zero held for demoUser,
resetUserData still succeeds and wipes the stored fingerprint while the
lock table is untouched: the reset handler neither acquires nor consults
the per-user sync lock, so it is not rejected while a fresh lock is held
and a reset can interleave with a concurrent batch add. -/
theorem resetUserData_ignores_fresh_sync_lock :
    FingerprintSyncController.resetUserData lockedState [demoUser] demoUser =
      Except.ok
        ({ clearedFingerprints := 1, clearedMetas := 0, deletedSessions := 0 },
         { db := { fingerprints := [], md5s := [], metas := [] }
           sessions := []
           syncLocks := lockedState.syncLocks })
    ∧ lockedState.syncLocks ≠ [] := by
  refine ⟨by rfl, by decide⟩

/-- C4 amended: batchAddFingerprints acquires the per-user sync lock at
entry and releases it on exit including error paths, and a conflicting
acquisition is rejected unless the held lock is older than 5 minutes, in
which case it is forcibly reclaimed; resetUserData, however, performs no
lock acquisition at all: its outcome ignores the lock table and leaves it
unchanged, so a reset is not serialized against a concurrent batch add for
the same user. -/
theorem sync_lock_protocol (st : SyncService.ServiceState) (userKey : String)
    (fps : List String) (now lockId : Nat) (authKeys : List String) :
    ((SyncService.batchAddFingerprints st userKey fps now lockId).2.syncLocks.find?
        (fun p => p.1 == userKey) = none)
    ∧ (∀ p, st.syncLocks.find? (fun q => q.1 == userKey) = some p →
        now - p.2.startTime ≤ 5 * 60 * 1000 →
        (SyncService.batchAddFingerprints st userKey fps now lockId).1 =
          Except.error "SYNC_IN_PROGRESS")
    ∧ (∀ p, st.syncLocks.find? (fun q => q.1 == userKey) = some p →
        5 * 60 * 1000 < now - p.2.startTime →
        ∃ locks,
          SyncService.acquireSyncLock st.syncLocks userKey "batch_add" now lockId =
            Except.ok locks)
    ∧ (∀ r st', FingerprintSyncController.resetUserData st authKeys userKey =
          Except.ok (r, st') → st'.syncLocks = st.syncLocks)
    ∧ (∀ locks',
        (FingerprintSyncController.resetUserData
            { db := st.db, sessions := st.sessions, syncLocks := locks' }
            authKeys userKey).map
          (fun r => (r.1, r.2.db, r.2.sessions)) =
        (FingerprintSyncController.resetUserData st authKeys userKey).map
          (fun r => (r.1, r.2.db, r.2.sessions))) := by
  refine ⟨?_, ?_, ?_, ?_, ?_⟩
  · unfold SyncService.batchAddFingerprints
    cases hA : SyncService.acquireSyncLock st.syncLocks userKey "batch_add" now lockId with
    | error e => simpa using releaseSyncLock_find_none st.syncLocks userKey
    | ok locks1 =>
      cases hB : SyncService.batchAddCore st.db userKey fps now with
      | error e => simpa using releaseSyncLock_find_none locks1 userKey
      | ok r => simpa using releaseSyncLock_find_none locks1 userKey
  · intro p hp hfresh
    have hcond : ¬(now - p.2.startTime > 5 * 60 * 1000) := by omega
    have hA : SyncService.acquireSyncLock st.syncLocks userKey "batch_add" now lockId =
        Except.error "SYNC_IN_PROGRESS" := by
      simp [SyncService.acquireSyncLock, hp, hcond]
    unfold SyncService.batchAddFingerprints
    rw [hA]
  · intro p hp hstale
    have hcond : now - p.2.startTime > 5 * 60 * 1000 := hstale
    simp [SyncService.acquireSyncLock, hp, hcond]
  · intro r st' h
    unfold FingerprintSyncController.resetUserData at h
    by_cases h1 : UserKeyUtils.isValidFormat userKey
    · by_cases h2 : UserKeyUtils.normalize userKey ∈ authKeys
      · simp [h1, h2] at h
        rcases h with ⟨hr, hst⟩
        subst hst
        rfl
      · simp [h1, h2] at h
    · simp [h1] at h
  · intro locks'
    unfold FingerprintSyncController.resetUserData
    by_cases h1 : UserKeyUtils.isValidFormat userKey
    · by_cases h2 : UserKeyUtils.normalize userKey ∈ authKeys
      · simp [h1, h2, Except.map]
      · simp [h1, h2, Except.map]
    · simp [h1, Except.map]

/-- C4 amended witness (the rejection row at a held zero-age lock). -/
theorem sync_lock_protocol_witness :
    (SyncService.batchAddFingerprints lockedState demoUser [demoFp] 0 1).1 =
      Except.error "SYNC_IN_PROGRESS" :=
  (sync_lock_protocol lockedState demoUser [demoFp] 0 1 []).2.1
    (demoUser, { operation := "batch_add", startTime := 0, lockId := 0 })
    (by decide) (by decide)

/-- C9 witness. -/
theorem check_tiebreak_refresh_error_swallowed_witness :
    SyncService.checkSyncRequired false
      { totalCount := 2, collectionHash := "h1", lastSyncAt := none } 2 "h2"
      (Except.error ()) =
      { needSync := true
        reason := "hash_mismatch"
        serverCount := some 2
        serverHash := some "h1"
        lastSyncAt := none } :=
  check_tiebreak_refresh_error_swallowed
    { totalCount := 2, collectionHash := "h1", lastSyncAt := none } 2 "h2"
    (by decide) (by decide) (by decide)


theorem insertLoop_mem (userKey : String) (batch : List String)
    (db : List FpDoc) (d : FpDoc) :
    d ∈ (UserFingerprintCollection.insertLoop db userKey batch).1 ↔
      d ∈ db ∨ ∃ fp ∈ batch, d = { userKey := userKey, fingerprint := fp.toLower } := by
  induction batch generalizing db with
  | nil => simp [UserFingerprintCollection.insertLoop]
  | cons fp rest ih =>
    by_cases h : ({ userKey := userKey, fingerprint := fp.toLower } : FpDoc) ∈ db
    · simp only [UserFingerprintCollection.insertLoop, if_pos h, ih,
        List.mem_cons]
      constructor
      · rintro (hd | ⟨g, hg, hdg⟩)
        · exact Or.inl hd
        · exact Or.inr ⟨g, Or.inr hg, hdg⟩
      · rintro (hd | ⟨g, (rfl | hg), hdg⟩)
        · exact Or.inl hd
        · exact Or.inl (hdg ▸ h)
        · exact Or.inr ⟨g, hg, hdg⟩
    · simp only [UserFingerprintCollection.insertLoop, if_neg h, ih,
        List.mem_append, List.mem_singleton, List.mem_cons,
        List.not_mem_nil, or_false]
      constructor
      · rintro ((hd | hd) | ⟨g, hg, hdg⟩)
        · exact Or.inl hd
        · exact Or.inr ⟨fp, Or.inl rfl, hd⟩
        · exact Or.inr ⟨g, Or.inr hg, hdg⟩
      · rintro (hd | ⟨g, (rfl | hg), hdg⟩)
        · exact Or.inl (Or.inl hd)
        · exact Or.inl (Or.inr hdg)
        · exact Or.inr ⟨g, hg, hdg⟩

theorem insertLoop_count_le (userKey : String) (batch : List String)
    (db : List FpDoc) :
    (UserFingerprintCollection.insertLoop db userKey batch).2 ≤ batch.length := by
  induction batch generalizing db with
  | nil => simp [UserFingerprintCollection.insertLoop]
  | cons fp rest ih =>
    by_cases h : ({ userKey := userKey, fingerprint := fp.toLower } : FpDoc) ∈ db
    · simp only [UserFingerprintCollection.insertLoop, if_pos h, List.length_cons]
      exact Nat.le_succ_of_le (ih db)
    · simp only [UserFingerprintCollection.insertLoop, if_neg h, List.length_cons]
      exact Nat.succ_le_succ (ih _)

theorem insertLoop_stable (userKey : String) (batch : List String)
    (db : List FpDoc)
    (h : ∀ fp ∈ batch,
      ({ userKey := userKey, fingerprint := fp.toLower } : FpDoc) ∈ db) :
    UserFingerprintCollection.insertLoop db userKey batch = (db, 0) := by
  induction batch with
  | nil => rfl
  | cons fp rest ih =>
    have hd := h fp (List.mem_cons_self fp rest)
    simp only [UserFingerprintCollection.insertLoop, if_pos hd]
    exact ih (fun g hg => h g (List.mem_cons_of_mem fp hg))

/-- C6: the Fingerprint Store batch insert is an idempotent set-union
append: running addBatch a second time with the same batch leaves the
stored documents unchanged and reports zero inserts with every element a
duplicate; one run leaves exactly the old documents plus the lowercased
batch elements as (userKey, fingerprint) pairs, so duplicates within the
batch or against storage never cause partial failure and the non-duplicate
subset is always inserted; and the reported insertedCount + duplicateCount
always equals the submitted batch length. -/
theorem insertBatch_idempotent_union (db : List FpDoc) (userKey : String)
    (S : List String) :
    UserFingerprintCollection.addBatch
        (UserFingerprintCollection.addBatch db userKey S).1 userKey S =
      ((UserFingerprintCollection.addBatch db userKey S).1,
       { insertedCount := 0, duplicateCount := S.length })
    ∧ (∀ d, d ∈ (UserFingerprintCollection.addBatch db userKey S).1 ↔
        d ∈ db ∨ ∃ fp ∈ S, d = { userKey := userKey, fingerprint := fp.toLower })
    ∧ (UserFingerprintCollection.addBatch db userKey S).2.insertedCount +
        (UserFingerprintCollection.addBatch db userKey S).2.duplicateCount =
        S.length := by
  refine ⟨?_, fun d => insertLoop_mem userKey S db d, ?_⟩
  · have hall : ∀ fp ∈ S,
        ({ userKey := userKey, fingerprint := fp.toLower } : FpDoc) ∈
          (UserFingerprintCollection.insertLoop db userKey S).1 :=
      fun fp hfp => (insertLoop_mem userKey S db _).mpr (Or.inr ⟨fp, hfp, rfl⟩)
    simp only [UserFingerprintCollection.addBatch,
      insertLoop_stable userKey S _ hall, Nat.sub_zero]
  · have hle := insertLoop_count_le userKey S db
    simp only [UserFingerprintCollection.addBatch]
    omega

/-- C6 witness (one run then a second identical run on a concrete batch). -/
theorem insertBatch_idempotent_union_witness :
    UserFingerprintCollection.addBatch
        (UserFingerprintCollection.addBatch [] demoUser [demoFp]).1 demoUser
        [demoFp] =
      ((UserFingerprintCollection.addBatch [] demoUser [demoFp]).1,
       { insertedCount := 0, duplicateCount := 1 }) :=
  (insertBatch_idempotent_union [] demoUser [demoFp]).1


theorem contains_checkFingerprintExists (db : List FpDoc) (u : String)
    (normalized : List String) (fp : String)
    (hfp : fp ∈ normalized) (hfix : fp.toLower = fp) :
    (UserFingerprintCollection.checkFingerprintExists db u normalized).contains fp =
      (UserFingerprintCollection.userFingerprints db u).contains fp := by
  have hiff : fp ∈ UserFingerprintCollection.checkFingerprintExists db u normalized ↔
      fp ∈ UserFingerprintCollection.userFingerprints db u := by
    unfold UserFingerprintCollection.checkFingerprintExists
      UserFingerprintCollection.userFingerprints
    simp only [List.mem_map, List.mem_filter, Bool.and_eq_true, beq_iff_eq]
    constructor
    · rintro ⟨d, ⟨hd, huk, _⟩, hdf⟩
      exact ⟨d, ⟨hd, huk⟩, hdf⟩
    · rintro ⟨d, ⟨hd, huk⟩, hdf⟩
      refine ⟨d, ⟨hd, huk, ?_⟩, hdf⟩
      rw [hdf]
      exact List.elem_iff.mpr (List.mem_map.mpr ⟨fp, hfp, hfix⟩)
  show List.elem fp (UserFingerprintCollection.checkFingerprintExists db u normalized) =
    List.elem fp (UserFingerprintCollection.userFingerprints db u)
  rw [List.elem_eq_mem, List.elem_eq_mem]
  simp [hiff]

/-- C8: the serverMissing / serverExisting partition computed by
bidirectionalDiff does not depend on the bloom filter: any two
configurations of the bloom layer (enabled or disabled, and any filter
answers, covering the stale and absent cases) produce the same partition,
and on success the partition is exactly the full normalized batch filtered
by membership in the user's stored fingerprints. -/
theorem bidirectionalDiff_bloom_independent (db : List FpDoc) (u : String)
    (e1 e2 : Bool) (f1 f2 : String → Bool) (batch : List String) (bi : Nat) :
    ((SyncService.bidirectionalDiff db u e1 f1 batch bi).map
        (fun r => (r.serverMissingFingerprints, r.serverExistingFingerprints))) =
      ((SyncService.bidirectionalDiff db u e2 f2 batch bi).map
        (fun r => (r.serverMissingFingerprints, r.serverExistingFingerprints)))
    ∧ (∀ r, SyncService.bidirectionalDiff db u e1 f1 batch bi = Except.ok r →
        r.serverMissingFingerprints =
          (HashUtils.validateFingerprintArray batch).validItems.filter
            (fun fp =>
              !((UserFingerprintCollection.userFingerprints db u).contains fp))
        ∧ r.serverExistingFingerprints =
          (HashUtils.validateFingerprintArray batch).validItems.filter
            (fun fp =>
              (UserFingerprintCollection.userFingerprints db u).contains fp)) := by
  have hfixmem : ∀ fp ∈ (HashUtils.validateFingerprintArray batch).validItems,
      fp.toLower = fp := by
    intro fp hfp
    obtain ⟨g, _, rfl⟩ := List.mem_map.mp hfp
    exact string_toLower_toLower g
  constructor
  · by_cases hv : (HashUtils.validateFingerprintArray batch).valid
    · simp [SyncService.bidirectionalDiff, hv, Except.map]
    · simp [SyncService.bidirectionalDiff, hv, Except.map]
  · intro r hok
    unfold SyncService.bidirectionalDiff at hok
    by_cases hv : (HashUtils.validateFingerprintArray batch).valid
    · simp only [hv, Bool.not_true, Bool.false_eq_true, if_false,
        Except.ok.injEq] at hok
      subst hok
      constructor
      · apply List.filter_congr
        intro fp hfp
        rw [contains_checkFingerprintExists db u _ fp hfp (hfixmem fp hfp)]
      · apply List.filter_congr
        intro fp hfp
        rw [contains_checkFingerprintExists db u _ fp hfp (hfixmem fp hfp)]
    · simp [hv] at hok

/-- C8 witness (concrete batch with opposite bloom configurations). -/
theorem bidirectionalDiff_bloom_independent_witness :
    ((SyncService.bidirectionalDiff [] demoUser true (fun _ => true) [demoFp] 0).map
        (fun r => (r.serverMissingFingerprints, r.serverExistingFingerprints))) =
      ((SyncService.bidirectionalDiff [] demoUser false (fun _ => false) [demoFp] 0).map
        (fun r => (r.serverMissingFingerprints, r.serverExistingFingerprints))) :=
  (bidirectionalDiff_bloom_independent [] demoUser true false (fun _ => true)
    (fun _ => false) [demoFp] 0).1


theorem flatten_chunks (l : List String) (n : Nat) (k : Nat) :
    ((List.range k).map (fun i => (l.drop (i * n)).take n)).flatten =
      l.take (k * n) := by
  induction k with
  | zero => simp
  | succ k ih =>
    rw [List.range_succ, List.map_append, List.flatten_append]
    simp only [List.map_cons, List.map_nil, List.flatten_cons, List.flatten_nil,
      List.append_nil]
    rw [ih, Nat.succ_mul, List.take_add]

/-- C5: with the server-controlled page size (1000), every pullDiffPage page
is a contiguous slice of the sorted lowercased missing-in-client projection;
two distinct in-range page indices return disjoint pages; the concatenation
of pages 0 .. ceil(count/pageSize) - 1 is exactly the sorted projection;
page contents are a pure function of the stored session, hence stable
across calls; and any page index at or beyond totalPages is clamped to the
last page, which is returned with hasMore = false. The cache hypothesis
says the persisted sortedMissingInClient is either the sorted projection
(what recordSortedView writes back) or of a different length (forcing the
in-memory recomputation); the Nodup hypothesis reflects that
missingInClient enumerates a stored set with a unique index. -/
theorem pullDiffPage_pagination (s : DiffSessionRec)
    (hnodup : (s.missingInClient.map (fun m => m.toLower)).Nodup)
    (hcache : s.sortedMissingInClient = sortedProjection s ∨
      s.sortedMissingInClient.length ≠ s.missingInClient.length) :
    (∀ i, ∃ start, (SyncService.pullPage s i).missingFingerprints =
        ((sortedProjection s).drop start).take DEFAULT_PAGE_SIZE)
    ∧ (∀ i j, i < pageCount s → j < pageCount s → i ≠ j →
        List.Disjoint (SyncService.pullPage s i).missingFingerprints
          (SyncService.pullPage s j).missingFingerprints)
    ∧ ((List.range (pageCount s)).map
        (fun i => (SyncService.pullPage s i).missingFingerprints)).flatten =
        sortedProjection s
    ∧ (∀ i, (SyncService.pullPage s 0).pageInfo.totalPages ≤ i →
        SyncService.pullPage s i =
          SyncService.pullPage s
            ((SyncService.pullPage s 0).pageInfo.totalPages - 1)
        ∧ (SyncService.pullPage s i).pageInfo.hasMore = false) := by
  have hsm : SyncService.sortedMissingOf s = sortedProjection s := by
    rcases hcache with hc | hc
    · unfold SyncService.sortedMissingOf
      rw [if_pos (by
        rw [hc]
        unfold sortedProjection
        rw [List.length_mergeSort, List.length_map])]
      exact hc
    · unfold SyncService.sortedMissingOf
      rw [if_neg hc]
      rfl
  have hpp : ∀ i, SyncService.pullPage s i =
      { sessionId := s.sessionId
        missingFingerprints :=
          ((sortedProjection s).drop
            ((min i ((if pageCount s = 0 then 1 else pageCount s) - 1)) *
              DEFAULT_PAGE_SIZE)).take DEFAULT_PAGE_SIZE
        pageInfo :=
          { currentPage := min i ((if pageCount s = 0 then 1 else pageCount s) - 1)
            pageSize := DEFAULT_PAGE_SIZE
            totalPages := if pageCount s = 0 then 1 else pageCount s
            hasMore :=
              decide (min i ((if pageCount s = 0 then 1 else pageCount s) - 1) <
                (if pageCount s = 0 then 1 else pageCount s) - 1)
            totalCount := (sortedProjection s).length } } := by
    intro i
    unfold SyncService.pullPage
    simp only [hsm]
    rfl
  have hmf2 : ∀ i, i < pageCount s →
      (SyncService.pullPage s i).missingFingerprints =
        ((sortedProjection s).drop (i * DEFAULT_PAGE_SIZE)).take
          DEFAULT_PAGE_SIZE := by
    intro i hi
    rw [hpp i]
    have h0 : pageCount s ≠ 0 := by omega
    simp only [if_neg h0]
    rw [Nat.min_eq_left (by omega)]
  have hnodupL : (sortedProjection s).Nodup := by
    unfold sortedProjection
    exact ((List.mergeSort_perm (s.missingInClient.map (fun m => m.toLower))
      strLe).nodup_iff).mpr hnodup
  have key : ∀ a b, a < b →
      List.Disjoint
        (((sortedProjection s).drop (a * DEFAULT_PAGE_SIZE)).take DEFAULT_PAGE_SIZE)
        (((sortedProjection s).drop (b * DEFAULT_PAGE_SIZE)).take DEFAULT_PAGE_SIZE) := by
    intro a b hab x hxa hxb
    have h1 : x ∈ (sortedProjection s).take (a * DEFAULT_PAGE_SIZE + DEFAULT_PAGE_SIZE) := by
      rw [List.take_drop] at hxa
      exact List.drop_subset _ _ hxa
    have h2 : x ∈ (sortedProjection s).drop (b * DEFAULT_PAGE_SIZE) :=
      List.take_subset _ _ hxb
    have hle : a * DEFAULT_PAGE_SIZE + DEFAULT_PAGE_SIZE ≤ b * DEFAULT_PAGE_SIZE := by
      rw [← Nat.succ_mul]
      exact Nat.mul_le_mul_right DEFAULT_PAGE_SIZE hab
    exact List.disjoint_take_drop hnodupL hle h1 h2
  refine ⟨?_, ?_, ?_, ?_⟩
  · intro i
    refine ⟨(min i ((if pageCount s = 0 then 1 else pageCount s) - 1)) *
      DEFAULT_PAGE_SIZE, ?_⟩
    rw [hpp i]
  · intro i j hi hj hne
    rw [hmf2 i hi, hmf2 j hj]
    rcases Nat.lt_or_ge i j with hij | hij
    · exact key i j hij
    · have hji : j < i := by omega
      exact (key j i hji).symm
  · rw [List.map_congr_left (fun i hi => hmf2 i (List.mem_range.mp hi))]
    rw [flatten_chunks]
    apply List.take_of_length_le
    unfold pageCount DEFAULT_PAGE_SIZE
    unfold pageCount DEFAULT_PAGE_SIZE at *
    omega
  · intro i hi
    have htp : (SyncService.pullPage s 0).pageInfo.totalPages =
        (if pageCount s = 0 then 1 else pageCount s) := by
      rw [hpp 0]
    rw [htp] at hi
    have h1 : (1 : Nat) ≤ (if pageCount s = 0 then 1 else pageCount s) := by
      by_cases h0 : pageCount s = 0
      · simp [h0]
      · simp [h0]
        omega
    constructor
    · rw [htp, hpp i, hpp ((if pageCount s = 0 then 1 else pageCount s) - 1)]
      have hmin : min i ((if pageCount s = 0 then 1 else pageCount s) - 1) =
          min ((if pageCount s = 0 then 1 else pageCount s) - 1)
            ((if pageCount s = 0 then 1 else pageCount s) - 1) := by
        omega
      rw [hmin]
    · rw [hpp i]
      have hminr : min i ((if pageCount s = 0 then 1 else pageCount s) - 1) =
          (if pageCount s = 0 then 1 else pageCount s) - 1 := by
        omega
      simp only [hminr]
      simp

set_option maxRecDepth 8000 in
unseal String.mapAux in
/-- C5 witness (the page-concatenation conjunct on a three-element session). -/
theorem pullDiffPage_pagination_witness :
    ((List.range (pageCount demoPageSession)).map
        (fun i => (SyncService.pullPage demoPageSession i).missingFingerprints)).flatten =
      sortedProjection demoPageSession :=
  (pullDiffPage_pagination demoPageSession (by decide)
    (Or.inr (by decide))).2.2.1

end FRKB



